import Mathlib

/-!
Verification development for the VetEye service-assistant core:
the conversation state machine (`src/src/models/states.py`, `src/app.py`),
the knowledge-retrieval engine (`src/utils/knowledge.py`) and the inline
appointment-slot scheduler of `handle_service_scheduling` in `src/app.py`.

Python strings are modelled as Lean `String`s; the string helpers below
work on the underlying character lists so that every definition evaluates
inside the kernel.  `str.lower` is modelled by a case fold that agrees with
Python's Unicode lowering on ASCII, the Latin-1 supplement and Latin
Extended-A — the blocks that contain every character this application
compares, Polish letters included.  Python floats are modelled as exact
rationals.
-/

namespace VetEye

/-- One character of Python's `str.lower()`: the Unicode simple lowercase
mapping on ASCII (`A`–`Z`), the Latin-1 supplement (`À`–`Þ` except `×`,
offset `+0x20`) and Latin Extended-A (case pairs at distance 1, plus
`Ÿ → ÿ`), which covers all Polish capitals (`Ą Ć Ę Ł Ń Ó Ś Ź Ż`); other
characters are unchanged.  The single exception in these blocks is the
Turkish `İ` (U+0130), which Python expands to two characters and which is
therefore left unchanged here. -/
def lowerChar (c : Char) : Char :=
  let n := c.toNat
  if 0x41 ≤ n ∧ n ≤ 0x5A then Char.ofNat (n + 0x20)
  else if 0xC0 ≤ n ∧ n ≤ 0xDE ∧ n ≠ 0xD7 then Char.ofNat (n + 0x20)
  else if 0x100 ≤ n ∧ n ≤ 0x137 ∧ n % 2 = 0 ∧ n ≠ 0x130 then Char.ofNat (n + 1)
  else if 0x139 ≤ n ∧ n ≤ 0x148 ∧ n % 2 = 1 then Char.ofNat (n + 1)
  else if 0x14A ≤ n ∧ n ≤ 0x177 ∧ n % 2 = 0 then Char.ofNat (n + 1)
  else if n = 0x178 then Char.ofNat 0xFF
  else if 0x179 ≤ n ∧ n ≤ 0x17E ∧ n % 2 = 1 then Char.ofNat (n + 1)
  else c

/-- `str.lower`, character by character. -/
def lowerStr (s : String) : String := String.mk (s.data.map lowerChar)

/-- Does the second list occur at the head of the first? -/
def charsBegin : List Char → List Char → Bool
  | _, [] => true
  | [], _ :: _ => false
  | a :: as, b :: bs => a == b && charsBegin as bs

/-- Does `needle` occur as a contiguous sublist of `hay`?  Models Python's
`needle in hay` for strings. -/
def charsHasSub : List Char → List Char → Bool
  | [], needle => needle.isEmpty
  | a :: as, needle => charsBegin (a :: as) needle || charsHasSub as needle

/-- Python's substring test `sub in hay`. -/
def strHasSub (hay sub : String) : Bool := charsHasSub hay.data sub.data

/-- Python's `hay.startswith(p)`. -/
def strBegins (hay p : String) : Bool := charsBegin hay.data p.data

/-- Digit run of Python's `int(...)`: digits with single underscores allowed
between digits (callers guarantee the first character is a digit). -/
def pyDigitsVal : List Char → Nat → Option Nat
  | [], acc => some acc
  | '_' :: c :: rest, acc =>
      if c.isDigit then pyDigitsVal rest (acc * 10 + (c.toNat - 48)) else none
  | ['_'], _ => none
  | c :: rest, acc =>
      if c.isDigit then pyDigitsVal rest (acc * 10 + (c.toNat - 48)) else none

/-- Strip leading and trailing whitespace, as `str.strip()` does. -/
def pyTrim (cs : List Char) : List Char :=
  ((cs.dropWhile Char.isWhitespace).reverse.dropWhile Char.isWhitespace).reverse

/-- Python's `int(s)` for base 10: optional surrounding whitespace, optional
sign, then digits with optional single underscores between digits; `none`
models the `ValueError` path. -/
def pyInt (s : String) : Option Int :=
  match pyTrim s.data with
  | [] => none
  | '-' :: rest =>
    match rest with
    | c :: _ => if c.isDigit then (pyDigitsVal rest 0).map (fun n => -(n : Int)) else none
    | [] => none
  | '+' :: rest =>
    match rest with
    | c :: _ => if c.isDigit then (pyDigitsVal rest 0).map (fun n => (n : Int)) else none
    | [] => none
  | c :: rest => if c.isDigit then (pyDigitsVal (c :: rest) 0).map (fun n => (n : Int)) else none

/-- `ConversationState` from `src/src/models/states.py`. -/
inductive ConvState
  | WELCOME
  | GDPR
  | DEVICE_VERIFICATION
  | ISSUE_ANALYSIS
  | CHECK_RESOLUTION
  | ISSUE_REPORTED
  | SERVICE_SCHEDULING
  | COLLECT_CUSTOMER_INFO
  | CONFIRMATION
  | END
deriving DecidableEq, Repr, Fintype

/-- The `.value` string of each `ConversationState` member. -/
def stateValue : ConvState → String
  | .WELCOME => "welcome"
  | .GDPR => "gdpr"
  | .DEVICE_VERIFICATION => "device_verification"
  | .ISSUE_ANALYSIS => "issue_analysis"
  | .CHECK_RESOLUTION => "check_resolution"
  | .ISSUE_REPORTED => "issue_reported"
  | .SERVICE_SCHEDULING => "service_scheduling"
  | .COLLECT_CUSTOMER_INFO => "collect_customer_info"
  | .CONFIRMATION => "confirmation"
  | .END => "end"

/-- `VALID_STATE_TRANSITIONS` from `src/src/models/states.py` (sets as lists). -/
def validStateTransitions : ConvState → List ConvState
  | .WELCOME => [.DEVICE_VERIFICATION]
  | .GDPR => [.DEVICE_VERIFICATION, .END]
  | .DEVICE_VERIFICATION => [.ISSUE_ANALYSIS, .GDPR]
  | .ISSUE_ANALYSIS => [.CHECK_RESOLUTION, .ISSUE_REPORTED]
  | .CHECK_RESOLUTION => [.END, .ISSUE_REPORTED]
  | .ISSUE_REPORTED => [.SERVICE_SCHEDULING, .END]
  | .SERVICE_SCHEDULING => [.COLLECT_CUSTOMER_INFO, .END]
  | .COLLECT_CUSTOMER_INFO => [.CONFIRMATION, .SERVICE_SCHEDULING]
  | .CONFIRMATION => [.END, .SERVICE_SCHEDULING]
  | .END => [.WELCOME]

/-- The verified device record (only the fields the handlers read). -/
structure Device where
  model : String
deriving DecidableEq, Repr

/-- `ConversationContext` (`src/src/models/states.py`).  `attempts` and
`additional_info` are not dataclass fields but are set dynamically by
`handle_check_resolution`; `none` models the attribute being absent
(`hasattr` false).  `customer_info` is modelled by its four keys. -/
structure Ctx where
  currentState : ConvState
  stateHistory : List String
  gdprConsent : Bool
  verifiedDevice : Option Device
  issueDescription : String
  additionalInfo : Option String
  attempts : Option Nat
  dataStep : String
  customerName : Option String
  customerPhone : Option String
  customerEmail : Option String
  customerAddress : Option String
deriving DecidableEq, Repr

/-- The `current_state` property setter: appends the prior value to
`state_history` and changes the state, but only when the new state differs. -/
def setCurrentState (c : Ctx) (n : ConvState) : Ctx :=
  if n = c.currentState then c
  else { c with currentState := n,
                stateHistory := c.stateHistory ++ [stateValue c.currentState] }

/-- `set_state` from `src/app.py`: succeeds (returning `true`) iff the target
is in the outgoing set of the current state; on failure nothing is mutated. -/
def set_state (c : Ctx) (n : ConvState) : Ctx × Bool :=
  if n ∈ validStateTransitions c.currentState then (setCurrentState c n, true)
  else (c, false)

/-- An hourly appointment slot, as an absolute day index and an hour.
Day indices are counted from a Monday, so `day % 7 = 0` is Monday and
`day % 7 ∈ {5, 6}` is the weekend, matching `datetime.weekday()`. -/
structure Slot where
  day : Nat
  hour : Nat
deriving DecidableEq, Repr

/-- An already-booked time (local `Europe/Warsaw` wall-clock, as produced by
`get_occupied_slots` after timezone normalisation), with its minute kept to
show that conflict detection ignores it. -/
structure Booking where
  day : Nat
  hour : Nat
  minute : Nat
deriving DecidableEq, Repr

/-- `is_slot_occupied` from `src/app.py`: a slot conflicts with a booking iff
they share the calendar date and the hour (minutes are never compared). -/
def is_slot_occupied (d h : Nat) (occupied : List Booking) : Bool :=
  occupied.any fun b => b.day == d && b.hour == h

/-- The inner hour loop of `handle_service_scheduling`:
`for hour in range(8, 18)` keeping unoccupied slots. -/
def genHours (day : Nat) (occupied : List Booking) : List Slot :=
  (List.range' 8 10).filterMap fun h =>
    if is_slot_occupied day h occupied then none else some ⟨day, h⟩

/-- The outer day loop of `handle_service_scheduling`: `for day in range(10)`
starting at `startDay`, skipping Saturday and Sunday (`weekday() >= 5`). -/
def genDays : Nat → Nat → List Booking → List Slot
  | 0, _, _ => []
  | n + 1, day, occupied =>
      (if day % 7 ≥ 5 then [] else genHours day occupied) ++ genDays n (day + 1) occupied

/-- Slot generation of `handle_service_scheduling`, lines 471–498 of
`src/app.py`; the caller passes `startDay = today + 1`. -/
def generateSlots (startDay : Nat) (occupied : List Booking) : List Slot :=
  genDays 10 startDay occupied

/-- The issue categories distinguished by the substring tests of
`handle_check_resolution`. -/
inductive Cat
  | image
  | restart
  | heat
  | power
  | generic
deriving DecidableEq, Repr

/-- Category selection for the first diagnostic attempt (lines 359–394). -/
def catAttempt1 (desc : String) : Cat :=
  if strHasSub desc "zdjęcia" || strHasSub desc "obraz" || strHasSub desc "jakość obrazu" then .image
  else if strHasSub desc "restart" || strHasSub desc "wyłącza" || strHasSub desc "zawiesza" then .restart
  else if strHasSub desc "gorące" || strHasSub desc "temperatura" || strHasSub desc "przegrzewa" then .heat
  else if strHasSub desc "nie włącza" || strHasSub desc "nie uruchamia" then .power
  else .generic

/-- Category selection for the second diagnostic attempt (lines 397–418). -/
def catAttempt2 (desc : String) : Cat :=
  if strHasSub desc "zdjęcia" || strHasSub desc "obraz" || strHasSub desc "jakość obrazu" then .image
  else if strHasSub desc "restart" || strHasSub desc "wyłącza" || strHasSub desc "zawiesza" then .restart
  else .generic

/-- Category selection for the refined-solution path (lines 434–452). -/
def catRefined (desc : String) : Cat :=
  if strHasSub desc "zdjęcia" || strHasSub desc "obraz" || strHasSub desc "jakość obrazu" then .image
  else if strHasSub desc "restart" || strHasSub desc "wyłącza" || strHasSub desc "zawiesza" then .restart
  else .generic

/-- One constructor per distinct reply returned by the nine state handlers of
`src/app.py` (the Polish reply texts are abstracted to tags; `Cat` records
which variant of a templated reply was chosen). -/
inductive Reply
  | consentThanks
  | consentError
  | consentDeclined
  | needSerial
  | askConsent
  | needSerialAgain
  | deviceVerified
  | deviceNotFound
  | offTopic
  | needDetails
  | analysisResult
  | analysisRetry
  | analysisError
  | gladResolved
  | followupQuestions (c : Cat)
  | remediation (c : Cat)
  | serviceVisitOffer
  | refinedSolution (c : Cat)
  | scheduleAsk
  | reportedEnd
  | reportedReask
  | pickFromList
  | slotsList
  | noSlotsAvailable
  | schedAltContact
  | inneContact
  | slotChosen
  | rangePrompt (n : Nat)
  | numberOrInne
  | askSeeList
  | askPhone
  | badPhone
  | askEmail
  | badEmail
  | askAddress
  | confirmData
  | collectCrash
  | collectError
  | bookingDone
  | bookingError
  | collectAgain
  | confirmReask
  | anythingElse
  | goodbye
  | unknownState
deriving DecidableEq, Repr

/-- The whole mutable session: the `ConversationContext` plus the
`st.session_state` fields the handlers read and write. -/
structure AppState where
  ctx : Ctx
  showingSlots : Bool
  availableSlots : List Slot
  selectedSlot : Option Slot
  clientName : String
  clientPhone : String
  clientEmail : String
  clientAddress : String
deriving DecidableEq, Repr

/-- Results of the external collaborators consulted during one message:
device-registry lookup, topic classifier, collaborator failures, the current
date and the booked times fetched from the calendar store. -/
structure Env where
  deviceLookup : Option Device
  onTopic : Bool
  analysisRaises : Bool
  today : Nat
  occupied : List Booking
  bookingRaises : Bool

/-- `message.lower() in ['tak', 't', 'yes', 'y']`. -/
def isAffirm (m : String) : Bool := ["tak", "t", "yes", "y"].contains (lowerStr m)

/-- `message.lower() in ['nie', 'n', 'no']`. -/
def isNeg (m : String) : Bool := ["nie", "n", "no"].contains (lowerStr m)

/-- The unresolved-problem phrases tested by `handle_check_resolution`. -/
def negPhrases : List String := ["nadal", "wciąż", "dalej", "nie pomogło", "nie działa"]

/-- `any(phrase in message.lower() for phrase in ...)`. -/
def hasNegPhrase (m : String) : Bool := negPhrases.any fun p => strHasSub (lowerStr m) p

/-- `context.additional_info = context.additional_info + "\n" + message if
hasattr(...) else message`. -/
def appendInfo (old : Option String) (msg : String) : Option String :=
  match old with
  | some t => some (t ++ "\n" ++ msg)
  | none => some msg

/-- `handle_welcome` (lines 202–246). -/
def handleWelcome (s : AppState) (msg : String) : AppState × Reply :=
  if isAffirm msg then
    let s1 := { s with ctx := { s.ctx with gdprConsent := true } }
    let r := set_state s1.ctx .DEVICE_VERIFICATION
    if r.2 then ({ s1 with ctx := r.1 }, .consentThanks)
    else ({ s1 with ctx := r.1 }, .consentError)
  else if isNeg msg then (s, .consentDeclined)
  else if s.ctx.gdprConsent then (s, .needSerial)
  else (s, .askConsent)

/-- `handle_device_verification` (lines 248–283); the registry lookup result
is supplied by `env.deviceLookup`. -/
def handleDevice (env : Env) (s : AppState) (msg : String) : AppState × Reply :=
  if !(strBegins (lowerStr msg) "sn:") && !(strBegins (lowerStr msg) "sn ") then
    (s, .needSerialAgain)
  else
    match env.deviceLookup with
    | some dev =>
        let s1 := { s with ctx := { s.ctx with verifiedDevice := some dev } }
        let r := set_state s1.ctx .ISSUE_ANALYSIS
        ({ s1 with ctx := r.1 }, .deviceVerified)
    | none => (s, .deviceNotFound)

/-- Splits a character list into maximal whitespace-free runs, as Python's
`message.split()` does (empty pieces dropped). -/
def splitWsGo : List Char → List Char → List String
  | [], cur => if cur.isEmpty then [] else [String.mk cur.reverse]
  | c :: rest, cur =>
      if c.isWhitespace then
        if cur.isEmpty then splitWsGo rest []
        else String.mk cur.reverse :: splitWsGo rest []
      else splitWsGo rest (c :: cur)

/-- Python's `message.split()`. -/
def splitWs (msg : String) : List String := splitWsGo msg.data []

/-- `[w for w in message.split() if len(w) > 1]`. -/
def wordsLonger1 (msg : String) : List String :=
  (splitWs msg).filter fun w => 1 < w.length

/-- `handle_issue_analysis` (lines 285–334).  A missing verified device makes
`verified_device.get` raise; the handler's own `except` turns that, and any
collaborator failure (`env.analysisRaises`), into an apology reply. -/
def handleIssueAnalysis (env : Env) (s : AppState) (msg : String) : AppState × Reply :=
  if s.ctx.verifiedDevice = none then (s, .analysisError)
  else if env.onTopic = false then (s, .offTopic)
  else if (wordsLonger1 msg).length < 3 ∧ msg.length < 20 then (s, .needDetails)
  else if env.analysisRaises then (s, .analysisError)
  else
    let s1 := { s with ctx := { s.ctx with issueDescription := msg } }
    let r := set_state s1.ctx .CHECK_RESOLUTION
    if r.2 then ({ s1 with ctx := r.1 }, .analysisResult)
    else ({ s1 with ctx := r.1 }, .analysisRetry)

/-- `handle_check_resolution` (lines 336–452). -/
def handleCheckResolution (s : AppState) (msg : String) : AppState × Reply :=
  if isAffirm msg then
    let r := set_state s.ctx .END
    ({ s with ctx := r.1 }, .gladResolved)
  else if isNeg msg || hasNegPhrase msg then
    let s1 :=
      if isNeg msg then s
      else { s with ctx := { s.ctx with additionalInfo := appendInfo s.ctx.additionalInfo msg } }
    let a := match s1.ctx.attempts with
      | none => 1
      | some k => k + 1
    let s2 := { s1 with ctx := { s1.ctx with attempts := some a } }
    let desc := lowerStr s2.ctx.issueDescription
    if a ≤ 2 then
      if a = 1 then (s2, .followupQuestions (catAttempt1 desc))
      else (s2, .remediation (catAttempt2 desc))
    else
      let r := set_state s2.ctx .ISSUE_REPORTED
      ({ s2 with ctx := r.1 }, .serviceVisitOffer)
  else
    let s1 := { s with ctx := { s.ctx with additionalInfo := appendInfo s.ctx.additionalInfo msg } }
    (s1, .refinedSolution (catRefined (lowerStr s1.ctx.issueDescription)))

/-- `handle_issue_reported` (lines 454–463). -/
def handleIssueReported (s : AppState) (msg : String) : AppState × Reply :=
  if isAffirm msg then
    let r := set_state s.ctx .SERVICE_SCHEDULING
    ({ s with ctx := r.1 }, .scheduleAsk)
  else if isNeg msg then
    let r := set_state s.ctx .END
    ({ s with ctx := r.1 }, .reportedEnd)
  else (s, .reportedReask)

/-- A slot used only as the (unreachable) default of the bounds-checked
list access in `handleScheduling`. -/
def dummySlot : Slot := ⟨0, 0⟩

/-- `handle_service_scheduling` (lines 465–550).  `env.today`/`env.occupied`
model `datetime.now()` and `get_occupied_slots()`. -/
def handleScheduling (env : Env) (s : AppState) (msg : String) : AppState × Reply :=
  if isAffirm msg then
    if s.showingSlots then (s, .pickFromList)
    else
      let slots := generateSlots (env.today + 1) env.occupied
      if slots.isEmpty then (s, .noSlotsAvailable)
      else ({ s with availableSlots := slots, showingSlots := true }, .slotsList)
  else if isNeg msg then (s, .schedAltContact)
  else if s.showingSlots then
    if lowerStr msg = "inne" then (s, .inneContact)
    else
      match pyInt msg with
      | some n =>
          if 1 ≤ n ∧ n ≤ (s.availableSlots.length : Int) then
            let sel := s.availableSlots.getD (n.toNat - 1) dummySlot
            let r := set_state s.ctx .COLLECT_CUSTOMER_INFO
            ({ s with ctx := r.1, selectedSlot := some sel }, .slotChosen)
          else (s, .rangePrompt s.availableSlots.length)
      | none => (s, .numberOrInne)
  else (s, .askSeeList)

/-- `len(message.replace(' ', '').replace('-', ''))`: the characters left
after stripping spaces and hyphens. -/
def stripPhone (msg : String) : List Char :=
  msg.data.filter fun c => !(c == ' ' || c == '-')

/-- `handle_collect_customer_info` (lines 635–682).  In the address step the
code formats `st.session_state.selected_slot`; when no slot was selected this
raises and the dispatch loop converts the exception into an error reply after
the address fields were already written (`collectCrash`). -/
def handleCollect (s : AppState) (msg : String) : AppState × Reply :=
  if s.ctx.dataStep = "name" then
    ({ s with clientName := msg,
              ctx := { s.ctx with customerName := some msg, dataStep := "phone" } }, .askPhone)
  else if s.ctx.dataStep = "phone" then
    if 9 ≤ (stripPhone msg).length then
      ({ s with clientPhone := msg,
                ctx := { s.ctx with customerPhone := some msg, dataStep := "email" } }, .askEmail)
    else (s, .badPhone)
  else if s.ctx.dataStep = "email" then
    if msg.data.contains '@' && msg.data.contains '.' then
      ({ s with clientEmail := msg,
                ctx := { s.ctx with customerEmail := some msg, dataStep := "address" } }, .askAddress)
    else (s, .badEmail)
  else if s.ctx.dataStep = "address" then
    let s1 := { s with clientAddress := msg,
                       ctx := { s.ctx with customerAddress := some msg } }
    match s1.selectedSlot with
    | none => (s1, .collectCrash)
    | some _ =>
        let r := set_state s1.ctx .CONFIRMATION
        ({ s1 with ctx := r.1 }, .confirmData)
  else (s, .collectError)

/-- `handle_confirmation` (lines 684–810).  A missing verified device or any
collaborator failure is caught by the handler's own `except` and becomes an
apology reply without a state change. -/
def handleConfirmation (env : Env) (s : AppState) (msg : String) : AppState × Reply :=
  if isAffirm msg then
    if s.ctx.verifiedDevice = none || env.bookingRaises then (s, .bookingError)
    else
      let r := set_state s.ctx .END
      ({ s with ctx := r.1 }, .bookingDone)
  else if isNeg msg then
    let r := set_state s.ctx .COLLECT_CUSTOMER_INFO
    ({ s with ctx := r.1 }, .collectAgain)
  else (s, .confirmReask)

/-- A fresh `ConversationContext()`: dataclass defaults; the dynamic
attributes `attempts`/`additional_info` do not exist yet. -/
def freshCtx : Ctx :=
  { currentState := .WELCOME
    stateHistory := []
    gdprConsent := false
    verifiedDevice := none
    issueDescription := ""
    additionalInfo := none
    attempts := none
    dataStep := "name"
    customerName := none
    customerPhone := none
    customerEmail := none
    customerAddress := none }

/-- `handle_end` (lines 812–819): an affirmative answer replaces the context
with a fresh one; the session fields are NOT reset. -/
def handleEnd (s : AppState) (msg : String) : AppState × Reply :=
  if isAffirm msg then ({ s with ctx := freshCtx }, .anythingElse)
  else (s, .goodbye)

/-- The per-state dispatch of `main` (lines 884–913).  `GDPR` has no handler
and falls into the unknown-state branch. -/
def dispatch (env : Env) (s : AppState) (msg : String) : AppState × Reply :=
  match s.ctx.currentState with
  | .WELCOME => handleWelcome s msg
  | .DEVICE_VERIFICATION => handleDevice env s msg
  | .ISSUE_ANALYSIS => handleIssueAnalysis env s msg
  | .CHECK_RESOLUTION => handleCheckResolution s msg
  | .ISSUE_REPORTED => handleIssueReported s msg
  | .SERVICE_SCHEDULING => handleScheduling env s msg
  | .COLLECT_CUSTOMER_INFO => handleCollect s msg
  | .CONFIRMATION => handleConfirmation env s msg
  | .END => handleEnd s msg
  | .GDPR => (s, .unknownState)

/-- The state of a brand-new session (`initialize_session_state`). -/
def initialState : AppState :=
  { ctx := freshCtx
    showingSlots := false
    availableSlots := []
    selectedSlot := none
    clientName := ""
    clientPhone := ""
    clientEmail := ""
    clientAddress := "" }

/-- States reachable from a fresh conversation through the dispatch loop,
for arbitrary user messages and collaborator behaviours. -/
inductive Reachable : AppState → Prop
  | init : Reachable initialState
  | next (env : Env) (msg : String) {s : AppState} :
      Reachable s → Reachable (dispatch env s msg).1

/-! ## Knowledge base (`src/utils/knowledge.py`) -/

/-- A troubleshooting entry (`troubleshooting.json` record); a missing
`device_model` key is modelled as `""` (both are falsy in the code). -/
structure TroubleEntry where
  deviceModel : String
  keywords : List String
  symptoms : List String
  problem : String
  solution : String
deriving DecidableEq, Repr

/-- A general document (`documents.json` record). -/
structure Doc where
  deviceModel : String
  content : String
deriving DecidableEq, Repr

/-- A usage guide (`usage.json` record). -/
structure Guide where
  deviceModel : String
  title : String
  content : String
deriving DecidableEq, Repr

/-- The three loaded collections of `KnowledgeBase`. -/
structure KnowledgeBase where
  troubleshooting : List TroubleEntry
  documents : List Doc
  usageGuides : List Guide
deriving DecidableEq, Repr

/-- A found solution: `{content, relevance, type}`. -/
structure Candidate where
  content : String
  relevance : ℚ
  ctype : String
deriving DecidableEq, Repr

/-- A word character of `re.findall(r'\w+', ...)`: alphanumeric or
underscore; characters beyond ASCII are treated as word characters (in this
corpus every non-ASCII character is a Polish letter). -/
def isWordChar (c : Char) : Bool := c.isAlphanum || c == '_' || 128 ≤ c.toNat

/-- Splits a character list into maximal runs of word characters. -/
def tokenizeGo : List Char → List Char → List String
  | [], cur => if cur.isEmpty then [] else [String.mk cur.reverse]
  | c :: rest, cur =>
      if isWordChar c then tokenizeGo rest (c :: cur)
      else if cur.isEmpty then tokenizeGo rest []
      else String.mk cur.reverse :: tokenizeGo rest []

/-- `_tokenize`: `re.findall(r'\w+', text.lower())`. -/
def tokenize (text : String) : List String := tokenizeGo (lowerStr text).data []

/-- `_calculate_keyword_match`: the fraction of query tokens that occur as a
substring of some keyword (`token in kw`); `0` when there are no keywords or
no tokens. -/
def calculateKeywordMatch (problemTokens : List String) (keywords : List String) : ℚ :=
  if keywords.isEmpty then 0
  else
    let matchCount := (problemTokens.filter fun t => keywords.any fun kw => strHasSub kw t).length
    if problemTokens.isEmpty then 0 else (matchCount : ℚ) / (problemTokens.length : ℚ)

/-- Length of the common run at the heads of two character lists. -/
def commonRun : List Char → List Char → Nat
  | a :: as, b :: bs => if a = b then commonRun as bs + 1 else 0
  | _, _ => 0

/-- `difflib.SequenceMatcher.find_longest_match` without the junk heuristic
(the autojunk popularity rule only fires for strings of 200+ characters,
longer than anything this corpus compares): the longest matching block,
earliest in `a`, then earliest in `b`. -/
def bestMatch (a b : List Char) : Nat × Nat × Nat :=
  let cands := (List.range a.length).flatMap fun i =>
    (List.range b.length).map fun j => (i, j, commonRun (a.drop i) (b.drop j))
  cands.foldl (fun best c => if c.2.2 > best.2.2 then c else best) (0, 0, 0)

/-- Total size of all matching blocks (`get_matching_blocks` recursion);
`fuel` bounds the recursion depth and `a.length + b.length` always suffices. -/
def matchTotalFuel : Nat → List Char → List Char → Nat
  | 0, _, _ => 0
  | fuel + 1, a, b =>
      let m := bestMatch a b
      if m.2.2 = 0 then 0
      else
        m.2.2 + matchTotalFuel fuel (a.take m.1) (b.take m.2.1)
          + matchTotalFuel fuel (a.drop (m.1 + m.2.2)) (b.drop (m.2.1 + m.2.2))

/-- `SequenceMatcher(None, a, b).ratio()`: `2*M/T`, and `1` when both inputs
are empty. -/
def seqMatchScore (a b : String) : ℚ :=
  let la := a.data.length
  let lb := b.data.length
  if la + lb = 0 then 1
  else 2 * (matchTotalFuel (la + lb) a.data b.data : ℚ) / ((la + lb : Nat) : ℚ)

/-- `_calculate_symptom_match`: the best similarity against the symptoms
longer than 5 characters; `0` when there is none. -/
def calculateSymptomMatch (problem : String) (symptoms : List String) : ℚ :=
  if symptoms.isEmpty then 0
  else
    let scores := (symptoms.filter fun sy => 5 < sy.length).map fun sy =>
      seqMatchScore (lowerStr problem) sy
    match scores with
    | [] => 0
    | x :: xs => xs.foldl max x

/-- `_calculate_text_similarity`. -/
def calculateTextSimilarity (t1 t2 : String) : ℚ :=
  seqMatchScore (lowerStr t1) (lowerStr t2)

/-- `_search_troubleshooting` (lines 110–148). -/
def searchTroubleshooting (entries : List TroubleEntry) (model : String)
    (problem : String) (problemTokens : List String) : List Candidate :=
  entries.filterMap fun item =>
    if item.deviceModel ≠ "" ∧ item.deviceModel ≠ model then none
    else
      let keywordsLower := item.keywords.map lowerStr
      let symptomsLower := item.symptoms.map lowerStr
      let content := item.problem ++ " " ++ item.solution
      let keywordMatch := calculateKeywordMatch problemTokens keywordsLower
      let symptomMatch := calculateSymptomMatch problem symptomsLower
      let contentMatch := calculateTextSimilarity problem content
      let relevance := keywordMatch * (4 / 10) + symptomMatch * (3 / 10) + contentMatch * (3 / 10)
      if relevance > 1 / 5 then
        some ⟨"Problem: " ++ item.problem ++ "\n\nRozwiązanie: " ++ item.solution,
              relevance, "troubleshooting"⟩
      else none

/-- The body of the `for doc in self.documents` loop of `_search_documents`
(lines 157–182).  The first document that passes the model filter reaches
`relevance = self._calculate_relevance(...)`; `KnowledgeBase` defines no
method `_calculate_relevance`, so that line raises `AttributeError`,
modelled as `.error ()`. -/
def searchDocumentsGo (model : String) : List Doc → Except Unit (List Candidate)
  | [] => .ok []
  | d :: rest =>
      if model ≠ "" ∧ model ≠ "unknown" ∧ d.deviceModel ≠ "" ∧ d.deviceModel ≠ model then
        searchDocumentsGo model rest
      else .error ()

/-- `_search_documents` (lines 150–188): the `except` at the end converts the
`AttributeError` into an empty result. -/
def searchDocuments (model : String) (docs : List Doc) : List Candidate :=
  match searchDocumentsGo model docs with
  | .ok r => r.take 5
  | .error _ => []

/-- `_search_usage_guides` (lines 190–214). -/
def searchUsageGuides (guides : List Guide) (model : String) (problem : String) : List Candidate :=
  guides.filterMap fun g =>
    if g.deviceModel ≠ "" ∧ g.deviceModel ≠ model then none
    else
      let similarity := calculateTextSimilarity problem g.content
      if similarity > 3 / 20 then
        some ⟨"Instrukcja: " ++ g.title ++ "\n\n" ++ g.content, similarity, "usage_guide"⟩
      else none

/-- Stable descending sort by relevance
(`sorted(..., key=relevance, reverse=True)`). -/
def sortByRelevanceDesc (cs : List Candidate) : List Candidate :=
  cs.mergeSort fun x y => y.relevance ≤ x.relevance

/-- `_generate_response_message` (lines 246–259). -/
def generateResponseMessage (solutions : List Candidate) : String :=
  if solutions.isEmpty then "Nie znaleziono dopasowań w bazie wiedzy dla tego problemu."
  else
    let count := solutions.length
    let types := solutions.map (·.ctype)
    if types.contains "troubleshooting" then
      "Znaleziono " ++ toString count ++ " potencjalnych rozwiązań tego problemu w bazie wiedzy."
    else if types.contains "documentation" then
      "Znaleziono " ++ toString count ++ " powiązanych informacji w dokumentacji technicznej."
    else
      "Znaleziono " ++ toString count ++ " powiązanych informacji w bazie wiedzy."

/-- `find_solution` (lines 62–108): troubleshooting first, then documents and
usage guides while fewer than 3 candidates, sorted by relevance, top 5. -/
def find_solution (kb : KnowledgeBase) (model : String) (problemDescription : String) :
    List Candidate × String :=
  let problemTokens := tokenize problemDescription
  let sols1 := searchTroubleshooting kb.troubleshooting model problemDescription problemTokens
  let sols2 :=
    if sols1.length < 3 then sols1 ++ searchDocuments model kb.documents else sols1
  let sols3 :=
    if sols2.length < 3 then sols2 ++ searchUsageGuides kb.usageGuides model problemDescription
    else sols2
  let sorted := sortByRelevanceDesc sols3
  (sorted.take 5, generateResponseMessage sorted)

/-- Modelled from the spec: the missing `_calculate_relevance` scoring of
`_search_documents` — "score by lexical overlap between query tokens and
lowercase content" — as the fraction of query tokens occurring in the
lowercased content. -/
def specLexicalOverlap (content : String) (problemTokens : List String) : ℚ :=
  if problemTokens.isEmpty then 0
  else ((problemTokens.filter fun t => strHasSub (lowerStr content) t).length : ℚ) /
    (problemTokens.length : ℚ)

/-- The keyword_match formula exactly as claim C7 words it: a token matches
when it is a substring of, or contains, some keyword. -/
def keywordMatchClaim (problemTokens : List String) (keywords : List String) : ℚ :=
  if keywords.isEmpty ∨ problemTokens.isEmpty then 0
  else
    ((problemTokens.countP fun t =>
        keywords.any fun kw => strHasSub kw t || strHasSub t kw) : ℚ) /
      (problemTokens.length : ℚ)

/-- The keyword_match formula as amended: only tokens that are a substring of
some keyword count. -/
def keywordMatchAmended (problemTokens : List String) (keywords : List String) : ℚ :=
  if keywords.isEmpty ∨ problemTokens.isEmpty then 0
  else
    ((problemTokens.countP fun t => keywords.any fun kw => strHasSub kw t) : ℚ) /
      (problemTokens.length : ℚ)

/-- Digits of a message, for the phone-validation claim ("at least 9 digits
after stripping separators"). -/
def digitCount (msg : String) : Nat := (msg.data.filter Char.isDigit).length

/-- The replies that re-prompt for a slot choice (ask the user to pick
again), used to state the slot-selection claim. -/
def isRepromptReply : Reply → Bool
  | .pickFromList => true
  | .rangePrompt _ => true
  | .numberOrInne => true
  | _ => false

/-! ## Concrete fixtures used by counterexamples and witnesses -/

/-- A collaborator environment with a successful lookup, on-topic classifier,
no failures, `today = 0` (a Monday) and an empty calendar. -/
def env0 : Env :=
  { deviceLookup := some ⟨"EchoVet 5"⟩
    onTopic := true
    analysisRaises := false
    today := 0
    occupied := []
    bookingRaises := false }

/-- A session waiting at the phone step of customer-data collection. -/
def collectPhoneState : AppState :=
  { initialState with
      ctx := { freshCtx with currentState := .COLLECT_CUSTOMER_INFO, dataStep := "phone" } }

/-- A session in `CHECK_RESOLUTION` with a stored issue description and no
prior diagnostic attempts. -/
def checkState0 : AppState :=
  { initialState with
      ctx := { freshCtx with
                 currentState := .CHECK_RESOLUTION
                 issueDescription := "obraz jest niewyrazny" } }

/-- A session in `SERVICE_SCHEDULING` that has already shown two slots. -/
def schedState1 : AppState :=
  { initialState with
      ctx := { freshCtx with currentState := .SERVICE_SCHEDULING }
      showingSlots := true
      availableSlots := [⟨1, 8⟩, ⟨1, 9⟩] }

/-- A documents collection with one model-free record that plainly matches
the query `"ekran nie dziala"`. -/
def c3Docs : List Doc := [⟨"", "ekran nie dziala"⟩]

/-- A knowledge base whose only content is `c3Docs`. -/
def c3Kb : KnowledgeBase := ⟨[], c3Docs, []⟩

/-- The invariant of claim C10: whenever the conversation sits in
`COLLECT_CUSTOMER_INFO` or `CONFIRMATION`, a slot has been selected. -/
def slotInv (s : AppState) : Prop :=
  (s.ctx.currentState = ConvState.COLLECT_CUSTOMER_INFO ∨
    s.ctx.currentState = ConvState.CONFIRMATION) → s.selectedSlot ≠ none

end VetEye

namespace VetEye

/-! ## Helper lemmas -/

/-- The transition table has no self-loops. -/
theorem mem_validStateTransitions_ne (S T : ConvState)
    (h : T ∈ validStateTransitions S) : T ≠ S := by
  revert h; revert T; revert S; decide

/-- `set_state` on a valid target: mutate and return `true`. -/
theorem set_state_of_mem (c : Ctx) (T : ConvState)
    (h : T ∈ validStateTransitions c.currentState) :
    set_state c T =
      ({ c with currentState := T,
                stateHistory := c.stateHistory ++ [stateValue c.currentState] }, true) := by
  have hne : T ≠ c.currentState := mem_validStateTransitions_ne _ _ h
  simp [set_state, setCurrentState, h, hne]

/-- `set_state` on an invalid target: no mutation, return `false`. -/
theorem set_state_of_not_mem (c : Ctx) (T : ConvState)
    (h : T ∉ validStateTransitions c.currentState) :
    set_state c T = (c, false) := by
  simp [set_state, h]

/-! ## Claims -/

/-- C1: for every context and every target `T` not in the outgoing-edge set
of the context's current state, `set_state` returns `false` and leaves the
context unchanged — `current_state` keeps its prior value and
`state_history` gains no entry. -/
theorem c1_invalid_transition_rejected (c : Ctx) (T : ConvState)
    (h : T ∉ validStateTransitions c.currentState) :
    (set_state c T).2 = false ∧ (set_state c T).1 = c := by
  rw [set_state_of_not_mem c T h]
  exact ⟨rfl, rfl⟩

/-- Witness for C1: from `WELCOME`, requesting `END` is rejected without any
side effect. -/
theorem c1_invalid_transition_rejected_witness :
    (set_state freshCtx ConvState.END).2 = false ∧
      (set_state freshCtx ConvState.END).1 = freshCtx :=
  c1_invalid_transition_rejected freshCtx ConvState.END (by decide)

/-- C2: for every context whose current state is `S` and every target `T` in
`S`'s outgoing set, `set_state` returns `true`, sets `current_state` to `T`,
and appends `S`'s tag as the new last element of `state_history`. -/
theorem c2_valid_transition_applied (c : Ctx) (T : ConvState)
    (h : T ∈ validStateTransitions c.currentState) :
    (set_state c T).2 = true ∧ (set_state c T).1.currentState = T ∧
      (set_state c T).1.stateHistory =
        c.stateHistory ++ [stateValue c.currentState] := by
  rw [set_state_of_mem c T h]
  exact ⟨rfl, rfl, rfl⟩

/-- Witness for C2: from `WELCOME`, requesting `DEVICE_VERIFICATION`
succeeds, moves the state and appends `"welcome"` to the history. -/
theorem c2_valid_transition_applied_witness :
    (set_state freshCtx ConvState.DEVICE_VERIFICATION).2 = true ∧
      (set_state freshCtx ConvState.DEVICE_VERIFICATION).1.currentState =
        ConvState.DEVICE_VERIFICATION ∧
      (set_state freshCtx ConvState.DEVICE_VERIFICATION).1.stateHistory =
        freshCtx.stateHistory ++ [stateValue freshCtx.currentState] :=
  c2_valid_transition_applied freshCtx ConvState.DEVICE_VERIFICATION (by decide)

/-- Counterexample to C7: the query token `"ekrany"` strictly contains the
keyword `"ekran"`; the claim's formula scores it `1`, but the code's
`token in kw` test only accepts tokens that are substrings of a keyword, so
`_calculate_keyword_match` returns `0`. -/
theorem c7_keyword_match_counterexample :
    strHasSub "ekrany" "ekran" = true ∧
      keywordMatchClaim ["ekrany"] ["ekran"] = 1 ∧
      calculateKeywordMatch ["ekrany"] ["ekran"] = 0 := by
  refine ⟨by decide, ?_, ?_⟩
  · simp [keywordMatchClaim]
    decide
  · simp [calculateKeywordMatch]
    decide

/-- C7 amended: `keyword_match` equals the number of query tokens that are a
substring of some entry keyword, divided by the total number of query tokens
(`0` when there are no keywords or no tokens); a token that strictly
contains a keyword does not count. -/
theorem c7_keyword_match_amended (problemTokens keywords : List String) :
    calculateKeywordMatch problemTokens keywords =
      keywordMatchAmended problemTokens keywords := by
  unfold calculateKeywordMatch keywordMatchAmended
  rcases hk : keywords.isEmpty with _ | _
  · rcases ht : problemTokens.isEmpty with _ | _
    · simp [hk, ht, List.countP_eq_length_filter]
    · simp [hk, ht]
  · simp [hk]

/-- Counterexample to C6: at the phone step, the nine-letter input
`"abcdefghi"` contains zero digits, yet the handler accepts it and advances
`data_collection_step` to `"email"`: the code checks the length after
removing spaces and hyphens, not a digit count. -/
theorem c6_phone_counterexample :
    digitCount "abcdefghi" = 0 ∧
      (handleCollect collectPhoneState "abcdefghi").1.ctx.dataStep = "email" ∧
      (handleCollect collectPhoneState "abcdefghi").2 = Reply.askEmail := by
  decide

/-- C6 amended: at the phone step an input is accepted (stored in
`customer_info` and `data_collection_step` advanced to `"email"`) iff the
message has at least 9 characters left after removing spaces and hyphens
(the characters need not be digits); otherwise a corrective prompt is
returned and nothing changes. -/
theorem c6_phone_validation (s : AppState) (msg : String)
    (h : s.ctx.dataStep = "phone") :
    (9 ≤ (stripPhone msg).length →
      handleCollect s msg =
        ({ s with clientPhone := msg,
                  ctx := { s.ctx with customerPhone := some msg, dataStep := "email" } },
          Reply.askEmail)) ∧
    ((stripPhone msg).length < 9 → handleCollect s msg = (s, Reply.badPhone)) := by
  constructor <;> intro hl
  · simp [handleCollect, h, hl]
  · have hnl : ¬(9 ≤ (stripPhone msg).length) := by omega
    simp [handleCollect, h, hnl]

/-- Witness for C6 (amended): `"123456789"` advances the phone step. -/
theorem c6_phone_validation_witness :
    handleCollect collectPhoneState "123456789" =
      ({ collectPhoneState with
           clientPhone := "123456789",
           ctx := { collectPhoneState.ctx with
                      customerPhone := some "123456789", dataStep := "email" } },
        Reply.askEmail) :=
  (c6_phone_validation collectPhoneState "123456789" rfl).1 (by decide)

/-- C9: in `CHECK_RESOLUTION`, a message that is neither affirmative nor
negative and contains none of the unresolved-problem phrases leaves
`current_state` and `attempts` unchanged: the handler only appends the
message to `additional_info` and answers with a refined solution chosen by
substring matching on the stored `issue_description`. -/
theorem c9_ambiguous_message_frame (s : AppState) (msg : String)
    (_hst : s.ctx.currentState = ConvState.CHECK_RESOLUTION)
    (ha : isAffirm msg = false) (hn : isNeg msg = false)
    (hp : hasNegPhrase msg = false) :
    handleCheckResolution s msg =
      ({ s with ctx := { s.ctx with
                           additionalInfo := appendInfo s.ctx.additionalInfo msg } },
        Reply.refinedSolution (catRefined (lowerStr s.ctx.issueDescription))) := by
  simp [handleCheckResolution, ha, hn, hp]

/-- Witness for C9: a free-text diagnostic reply does not advance the state
or consume an attempt. -/
theorem c9_ambiguous_message_frame_witness :
    handleCheckResolution checkState0 "sprawdzilem kable" =
      ({ checkState0 with
           ctx := { checkState0.ctx with
                      additionalInfo :=
                        appendInfo checkState0.ctx.additionalInfo "sprawdzilem kable" } },
        Reply.refinedSolution (catRefined (lowerStr checkState0.ctx.issueDescription))) :=
  c9_ambiguous_message_frame checkState0 "sprawdzilem kable" rfl (by decide) (by decide)
    (by decide)

/-- C4: starting in `CHECK_RESOLUTION` with no prior attempts, three
consecutive `"nie"` messages give: attempts 1 and a diagnostic follow-up
question set (state unchanged); attempts 2 and a remediation procedure
(state unchanged); and on the third, a transition to `ISSUE_REPORTED`. -/
theorem c4_three_negatives (s : AppState)
    (hst : s.ctx.currentState = ConvState.CHECK_RESOLUTION)
    (hat : s.ctx.attempts = none) :
    (handleCheckResolution s "nie").1.ctx.attempts = some 1 ∧
    (∃ c, (handleCheckResolution s "nie").2 = Reply.followupQuestions c) ∧
    (handleCheckResolution s "nie").1.ctx.currentState = ConvState.CHECK_RESOLUTION ∧
    (handleCheckResolution (handleCheckResolution s "nie").1 "nie").1.ctx.attempts = some 2 ∧
    (∃ c, (handleCheckResolution (handleCheckResolution s "nie").1 "nie").2 =
      Reply.remediation c) ∧
    (handleCheckResolution (handleCheckResolution s "nie").1 "nie").1.ctx.currentState =
      ConvState.CHECK_RESOLUTION ∧
    (handleCheckResolution
        (handleCheckResolution (handleCheckResolution s "nie").1 "nie").1
        "nie").1.ctx.currentState = ConvState.ISSUE_REPORTED := by
  have hna : isAffirm "nie" = false := by decide
  have hnn : isNeg "nie" = true := by decide
  have e1 : handleCheckResolution s "nie" =
      ({ s with ctx := { s.ctx with attempts := some 1 } },
        Reply.followupQuestions (catAttempt1 (lowerStr s.ctx.issueDescription))) := by
    simp [handleCheckResolution, hna, hnn, hat]
  have e2 : handleCheckResolution ({ s with ctx := { s.ctx with attempts := some 1 } }) "nie" =
      ({ s with ctx := { s.ctx with attempts := some 2 } },
        Reply.remediation (catAttempt2 (lowerStr s.ctx.issueDescription))) := by
    simp [handleCheckResolution, hna, hnn]
  have hmem : ConvState.ISSUE_REPORTED ∈
      validStateTransitions (({ s with ctx := { s.ctx with attempts := some 3 } }
        : AppState)).ctx.currentState := by
    simp only [hst]
    decide
  have e3 : handleCheckResolution ({ s with ctx := { s.ctx with attempts := some 2 } }) "nie" =
      ({ s with ctx :=
          { s.ctx with attempts := some 3,
                       currentState := ConvState.ISSUE_REPORTED,
                       stateHistory := s.ctx.stateHistory ++ [stateValue s.ctx.currentState] } },
        Reply.serviceVisitOffer) := by
    have hss := set_state_of_mem (({ s with ctx := { s.ctx with attempts := some 3 } }
        : AppState)).ctx ConvState.ISSUE_REPORTED hmem
    simp [handleCheckResolution, hna, hnn, hss]
  rw [e1, e2, e3]
  exact ⟨rfl, ⟨_, rfl⟩, hst, rfl, ⟨_, rfl⟩, hst, rfl⟩

/-- Witness for C4: three `"nie"` messages from the fixture context end in
`ISSUE_REPORTED`. -/
theorem c4_three_negatives_witness :
    (handleCheckResolution
        (handleCheckResolution (handleCheckResolution checkState0 "nie").1 "nie").1
        "nie").1.ctx.currentState = ConvState.ISSUE_REPORTED :=
  (c4_three_negatives checkState0 rfl rfl).2.2.2.2.2.2

/-- Membership in the hourly slots of one day. -/
theorem mem_genHours (day : Nat) (occupied : List Booking) (d h : Nat) :
    Slot.mk d h ∈ genHours day occupied ↔
      d = day ∧ 8 ≤ h ∧ h < 18 ∧ is_slot_occupied day h occupied = false := by
  simp only [genHours, List.mem_filterMap, List.mem_range'_1]
  constructor
  · rintro ⟨a, ⟨ha8, ha18⟩, hsome⟩
    by_cases hocc : is_slot_occupied day a occupied
    · simp [hocc] at hsome
    · simp only [hocc, if_false, Option.some.injEq, Slot.mk.injEq] at hsome
      obtain ⟨rfl, rfl⟩ := hsome
      exact ⟨rfl, ha8, by omega, by simpa using hocc⟩
  · rintro ⟨rfl, h8, h18, hocc⟩
    exact ⟨h, ⟨h8, by omega⟩, by simp [hocc]⟩

/-- Membership in the day loop of slot generation. -/
theorem mem_genDays (n : Nat) : ∀ (day : Nat) (occupied : List Booking) (d h : Nat),
    Slot.mk d h ∈ genDays n day occupied ↔
      (∃ k, k < n ∧ d = day + k) ∧ d % 7 < 5 ∧ 8 ≤ h ∧ h < 18 ∧
        is_slot_occupied d h occupied = false := by
  induction n with
  | zero =>
    intro day occupied d h
    simp [genDays]
  | succ n ih =>
    intro day occupied d h
    simp only [genDays, List.mem_append]
    constructor
    · rintro (hmem | hmem)
      · by_cases hw : day % 7 ≥ 5
        · simp [hw] at hmem
        · simp only [hw, if_false] at hmem
          obtain ⟨rfl, h8, h18, hocc⟩ := (mem_genHours day occupied d h).1 hmem
          exact ⟨⟨0, by omega, by omega⟩, by omega, h8, h18, hocc⟩
      · obtain ⟨⟨k, hk, rfl⟩, hmod, h8, h18, hocc⟩ := (ih (day + 1) occupied d h).1 hmem
        exact ⟨⟨k + 1, by omega, by omega⟩, hmod, h8, h18, hocc⟩
    · rintro ⟨⟨k, hk, rfl⟩, hmod, h8, h18, hocc⟩
      cases k with
      | zero =>
        left
        have hw : ¬(day % 7 ≥ 5) := by omega
        simp only [hw, if_false]
        exact (mem_genHours day occupied (day + 0) h).2 ⟨by omega, h8, h18, by
          simpa using hocc⟩
      | succ k =>
        right
        exact (ih (day + 1) occupied (day + (k + 1)) h).2
          ⟨⟨k, by omega, by omega⟩, hmod, h8, h18, hocc⟩

/-- With an empty calendar, a day's slot chunk is the full business-hours
range. -/
theorem genHours_nil (day : Nat) :
    genHours day [] = (List.range' 8 10).map fun h => Slot.mk day h := by
  have he : ∀ h, (if is_slot_occupied day h [] then none else some (Slot.mk day h)) =
      some (Slot.mk day h) := by
    intro h
    simp [is_slot_occupied]
  simp only [genHours, he]
  exact congrFun (List.filterMap_eq_map _) _

/-- Every generated slot's day is at least the start day. -/
theorem day_le_of_mem_genDays (n : Nat) : ∀ (day : Nat) (occupied : List Booking)
    (s : Slot), s ∈ genDays n day occupied → day ≤ s.day := by
  intro day occupied s hs
  obtain ⟨d, h⟩ := s
  obtain ⟨⟨k, _, rfl⟩, _⟩ := (mem_genDays n day occupied d h).1 hs
  exact Nat.le_add_right day k

/-- With an empty calendar, a working day inside the window contributes
exactly 10 slots. -/
theorem count_genDays (n : Nat) : ∀ (day d : Nat), d % 7 < 5 →
    (∃ k, k < n ∧ d = day + k) →
      ((genDays n day []).filter fun s => s.day == d).length = 10 := by
  induction n with
  | zero =>
    rintro day d _ ⟨k, hk, _⟩
    omega
  | succ n ih =>
    rintro day d hmod ⟨k, hk, rfl⟩
    simp only [genDays, List.filter_append, List.length_append]
    cases k with
    | zero =>
      have hw : ¬(day % 7 ≥ 5) := by omega
      have hrest : ((genDays n (day + 1) []).filter fun s => s.day == day + 0).length = 0 := by
        rw [List.length_eq_zero, List.filter_eq_nil_iff]
        intro s hs
        have hle := day_le_of_mem_genDays n (day + 1) [] s hs
        simp only [beq_iff_eq]
        omega
      have hchunk : ((if day % 7 ≥ 5 then [] else genHours day []).filter
          fun s => s.day == day + 0).length = 10 := by
        simp only [hw, if_false, genHours_nil, List.filter_map]
        have hcomp : ((fun s => s.day == day + 0) ∘ fun h => Slot.mk day h) =
            fun _ => true := by
          funext h
          simp
        rw [hcomp]
        simp
      rw [hchunk, hrest]
    | succ k =>
      have hchunk : ((if day % 7 ≥ 5 then [] else genHours day []).filter
          fun s => s.day == day + (k + 1)).length = 0 := by
        rw [List.length_eq_zero, List.filter_eq_nil_iff]
        intro s hs
        by_cases hw : day % 7 ≥ 5
        · simp [hw] at hs
        · simp only [hw, if_false, genHours_nil, List.mem_map] at hs
          obtain ⟨a, _, rfl⟩ := hs
          simp only [beq_iff_eq]
          omega
      rw [hchunk]
      have hres := ih (day + 1) (day + (k + 1)) hmod ⟨k, by omega, by omega⟩
      omega

/-- C5: slot generation enumerates hourly candidates over the 10 calendar
days starting the day after the current date; a candidate is emitted iff its
day is a working day (so Saturdays and Sundays — weekday ≥ 5 — get no slot,
covering the Friday-start scenario), its hour lies in 08:00–17:00, and no
booking shares its calendar date and hour (booking minutes are never
consulted); with an empty calendar every working day in the window gets
exactly 10 slots.  Bookings are the `Europe/Warsaw`-normalised times
produced by `get_occupied_slots`. -/
theorem c5_slot_generation (today : Nat) (occupied : List Booking) :
    (∀ d h, Slot.mk d h ∈ generateSlots (today + 1) occupied ↔
      ((∃ k, k < 10 ∧ d = today + 1 + k) ∧ d % 7 < 5 ∧ 8 ≤ h ∧ h < 18 ∧
        ∀ b ∈ occupied, ¬(b.day = d ∧ b.hour = h))) ∧
    (∀ d, d % 7 < 5 → (∃ k, k < 10 ∧ d = today + 1 + k) →
      ((generateSlots (today + 1) []).filter fun s => s.day == d).length = 10) := by
  constructor
  · intro d h
    rw [generateSlots, mem_genDays]
    have hocc : is_slot_occupied d h occupied = false ↔
        ∀ b ∈ occupied, ¬(b.day = d ∧ b.hour = h) := by
      simp [is_slot_occupied, List.any_eq_true]
    rw [hocc]
  · intro d hmod hex
    exact count_genDays 10 (today + 1) d hmod hex

/-- Witness for C5: with `today = 0` (a Monday) and an empty calendar, the
first generated slot is Tuesday 08:00, and Tuesday gets exactly 10 slots. -/
theorem c5_slot_generation_witness :
    Slot.mk 1 8 ∈ generateSlots 1 [] ∧
      ((generateSlots 1 []).filter fun s => s.day == 1).length = 10 := by
  have h := c5_slot_generation 0 []
  constructor
  · exact (h.1 1 8).2 ⟨⟨0, by omega, by omega⟩, by omega, by omega, by omega, by simp⟩
  · exact h.2 1 (by omega) ⟨0, by omega, by omega⟩

/-- Counterexample to C8: with slots shown, the non-numeric input `"nie"`
is not answered with a re-prompt — the handler returns the
alternative-contact explanation (it does, however, select no slot). -/
theorem c8_slot_selection_counterexample :
    pyInt "nie" = none ∧
      handleScheduling env0 schedState1 "nie" = (schedState1, Reply.schedAltContact) ∧
      isRepromptReply Reply.schedAltContact = false := by
  refine ⟨by decide, ?_, by decide⟩
  have hn : isNeg "nie" = true := by decide
  have ha : isAffirm "nie" = false := by decide
  simp [handleScheduling, ha, hn]

set_option maxRecDepth 4000 in
/-- C8 amended: once slots are shown, entering the number `i` with
`1 ≤ i ≤ |available|` stores exactly the `i`-th stored slot and transitions
to `COLLECT_CUSTOMER_INFO`; an out-of-range number, or non-numeric input
other than the recognized keywords, is rejected with a re-prompt and selects
no slot; the affirmative keywords also re-prompt, while a negative keyword
or `'inne'` returns a contact-alternative message, likewise selecting no
slot. -/
theorem c8_slot_selection (env : Env) (s : AppState) (msg : String)
    (hshow : s.showingSlots = true)
    (hst : s.ctx.currentState = ConvState.SERVICE_SCHEDULING) :
    (∀ i : Int, isAffirm msg = false → isNeg msg = false → lowerStr msg ≠ "inne" →
        pyInt msg = some i → 1 ≤ i → i ≤ (s.availableSlots.length : Int) →
        (handleScheduling env s msg).1.selectedSlot = s.availableSlots[i.toNat - 1]? ∧
        (handleScheduling env s msg).1.ctx.currentState = ConvState.COLLECT_CUSTOMER_INFO ∧
        (handleScheduling env s msg).2 = Reply.slotChosen) ∧
    (∀ i : Int, isAffirm msg = false → isNeg msg = false → lowerStr msg ≠ "inne" →
        pyInt msg = some i → (i < 1 ∨ (s.availableSlots.length : Int) < i) →
        handleScheduling env s msg = (s, Reply.rangePrompt s.availableSlots.length)) ∧
    (isAffirm msg = false → isNeg msg = false → lowerStr msg ≠ "inne" →
        pyInt msg = none → handleScheduling env s msg = (s, Reply.numberOrInne)) ∧
    (isAffirm msg = true → handleScheduling env s msg = (s, Reply.pickFromList)) ∧
    (isNeg msg = true → handleScheduling env s msg = (s, Reply.schedAltContact)) ∧
    (isAffirm msg = false → isNeg msg = false → lowerStr msg = "inne" →
        handleScheduling env s msg = (s, Reply.inneContact)) := by
  refine ⟨?_, ?_, ?_, ?_, ?_, ?_⟩
  · intro i ha hn hin hp h1 hlen
    have hb : 1 ≤ i ∧ i ≤ (s.availableSlots.length : Int) := ⟨h1, hlen⟩
    have hlt : i.toNat - 1 < s.availableSlots.length := by omega
    have hsel : s.availableSlots[i.toNat - 1]? =
        some (s.availableSlots.getD (i.toNat - 1) dummySlot) := by
      rw [List.getD_eq_getElem?_getD, List.getElem?_eq_getElem hlt]
      rfl
    have hss := set_state_of_mem s.ctx ConvState.COLLECT_CUSTOMER_INFO (by
      rw [hst]; decide)
    unfold handleScheduling
    simp only [ha, hn, hshow, Bool.false_eq_true, if_false, if_true, hin, hp, hb, and_self,
      ite_true]
    refine ⟨?_, ?_, trivial⟩
    · rw [hsel]
    · rw [hss]
  · intro i ha hn hin hp hout
    have hb : ¬(1 ≤ i ∧ i ≤ (s.availableSlots.length : Int)) := by omega
    unfold handleScheduling
    simp only [ha, hn, hshow, Bool.false_eq_true, if_false, if_true, hin, hp, hb, ite_false]
  · intro ha hn hin hp
    unfold handleScheduling
    simp only [ha, hn, hshow, Bool.false_eq_true, if_false, if_true, hin, hp]
  · intro ha
    unfold handleScheduling
    simp only [ha, hshow, if_true]
  · intro hn
    have hd : lowerStr msg = "nie" ∨ lowerStr msg = "n" ∨ lowerStr msg = "no" := by
      have hl := hn
      unfold isNeg at hl
      simpa using hl
    have ha : isAffirm msg = false := by
      unfold isAffirm
      rcases hd with h | h | h <;> simp [h]
    unfold handleScheduling
    simp only [ha, hn, Bool.false_eq_true, if_false, if_true]
  · intro ha hn hin
    unfold handleScheduling
    simp only [ha, hn, hshow, Bool.false_eq_true, if_false, if_true, hin]

/-- Witness for C8 (amended): selecting `"2"` from two shown slots stores
the second slot and moves to customer-data collection. -/
theorem c8_slot_selection_witness :
    (handleScheduling env0 schedState1 "2").1.selectedSlot =
        schedState1.availableSlots[1]? ∧
      (handleScheduling env0 schedState1 "2").1.ctx.currentState =
        ConvState.COLLECT_CUSTOMER_INFO ∧
      (handleScheduling env0 schedState1 "2").2 = Reply.slotChosen :=
  (c8_slot_selection env0 schedState1 "2" rfl rfl).1 2 (by decide) (by decide)
    (by decide) (by decide) (by decide) (by decide)

/-- C3 (code bug): `_search_documents` computes each document's relevance by
calling `self._calculate_relevance`, but `KnowledgeBase` defines no such
method, so the first document that passes the model filter raises
`AttributeError`; the `except` swallows it and returns `[]`.  Hence, even for
a non-empty documents collection whose document matches the query with a
spec-side lexical-overlap score of `1 > 0.1`, `find_solution` (with an empty
troubleshooting result, i.e. fewer than 3 candidates) returns no
document-type candidate at all. -/
theorem c3_document_search_bug :
    searchDocumentsGo "unknown" c3Docs = Except.error () ∧
      searchDocuments "unknown" c3Docs = [] ∧
      (find_solution c3Kb "unknown" "ekran nie dziala").1 = [] ∧
      specLexicalOverlap "ekran nie dziala" (tokenize "ekran nie dziala") = 1 := by
  have h2 : searchDocuments "unknown" c3Docs = [] := rfl
  have h3 : (find_solution c3Kb "unknown" "ekran nie dziala").1 = [] := by
    simp [find_solution, c3Kb, h2, searchTroubleshooting, searchUsageGuides,
      sortByRelevanceDesc, List.mergeSort_nil]
  refine ⟨rfl, h2, h3, ?_⟩
  have ht : tokenize "ekran nie dziala" = ["ekran", "nie", "dziala"] := by decide
  rw [ht]
  have hf : (["ekran", "nie", "dziala"].filter fun t =>
      strHasSub (lowerStr "ekran nie dziala") t) = ["ekran", "nie", "dziala"] := by
    decide
  simp [specLexicalOverlap, hf]

/-- A state is slot-invariant when its current state is neither of the two
customer-data states. -/
theorem slotInv_of_ne (t : AppState)
    (h1 : t.ctx.currentState ≠ ConvState.COLLECT_CUSTOMER_INFO)
    (h2 : t.ctx.currentState ≠ ConvState.CONFIRMATION) : slotInv t := by
  intro hbad
  rcases hbad with h | h
  · exact absurd h h1
  · exact absurd h h2

/-- `set_state` either moves to the target or leaves the state alone. -/
theorem set_state_currentState_cases (c : Ctx) (t : ConvState) :
    (set_state c t).1.currentState = t ∨ (set_state c t).1 = c := by
  unfold set_state
  by_cases hm : t ∈ validStateTransitions c.currentState
  · rw [if_pos hm]
    by_cases he : t = c.currentState
    · right
      simp [setCurrentState, if_pos he]
    · left
      simp [setCurrentState, if_neg he]
  · rw [if_neg hm]
    right
    rfl

/-- The current state after `set_state` is the target or the old state. -/
theorem state_after_set_state (c : Ctx) (t : ConvState) :
    (set_state c t).1.currentState = t ∨ (set_state c t).1.currentState = c.currentState := by
  rcases set_state_currentState_cases c t with h | h
  · exact Or.inl h
  · right
    rw [h]

/-- After `set_state`, the current state differs from `X` when both the
target and the prior state differ from `X`. -/
theorem ne_of_state_after (c : Ctx) (t : ConvState) (X : ConvState)
    (h1 : t ≠ X) (h2 : c.currentState ≠ X) :
    (set_state c t).1.currentState ≠ X := by
  rcases state_after_set_state c t with hc | hc <;> rw [hc] <;> assumption

theorem slotInv_handleWelcome (s : AppState) (msg : String)
    (hs : s.ctx.currentState = ConvState.WELCOME) :
    slotInv (handleWelcome s msg).1 := by
  simp only [handleWelcome]
  split
  · split <;>
      (apply slotInv_of_ne <;> exact ne_of_state_after _ _ _ (by decide) (by simp [hs]))
  · split
    · exact slotInv_of_ne s (by simp [hs]) (by simp [hs])
    · split <;> exact slotInv_of_ne s (by simp [hs]) (by simp [hs])

theorem slotInv_handleDevice (env : Env) (s : AppState) (msg : String)
    (hs : s.ctx.currentState = ConvState.DEVICE_VERIFICATION) :
    slotInv (handleDevice env s msg).1 := by
  simp only [handleDevice]
  split
  · exact slotInv_of_ne s (by simp [hs]) (by simp [hs])
  · split
    · apply slotInv_of_ne <;> exact ne_of_state_after _ _ _ (by decide) (by simp [hs])
    · exact slotInv_of_ne s (by simp [hs]) (by simp [hs])

theorem slotInv_handleIssueAnalysis (env : Env) (s : AppState) (msg : String)
    (hs : s.ctx.currentState = ConvState.ISSUE_ANALYSIS) :
    slotInv (handleIssueAnalysis env s msg).1 := by
  simp only [handleIssueAnalysis]
  split
  · exact slotInv_of_ne s (by simp [hs]) (by simp [hs])
  · split
    · exact slotInv_of_ne s (by simp [hs]) (by simp [hs])
    · split
      · exact slotInv_of_ne s (by simp [hs]) (by simp [hs])
      · split
        · exact slotInv_of_ne s (by simp [hs]) (by simp [hs])
        · split <;>
            (apply slotInv_of_ne <;>
              exact ne_of_state_after _ _ _ (by decide) (by simp [hs]))

theorem slotInv_handleCheckResolution (s : AppState) (msg : String)
    (hs : s.ctx.currentState = ConvState.CHECK_RESOLUTION) :
    slotInv (handleCheckResolution s msg).1 := by
  simp only [handleCheckResolution]
  split
  · apply slotInv_of_ne <;> exact ne_of_state_after _ _ _ (by decide) (by simp [hs])
  · split
    · by_cases hneg : isNeg msg = true
      · simp only [hneg, if_true]
        split
        · split <;> (apply slotInv_of_ne <;> simp [hs])
        · apply slotInv_of_ne <;> exact ne_of_state_after _ _ _ (by decide) (by simp [hs])
      · simp only [hneg, Bool.false_eq_true, if_false]
        split
        · split <;> (apply slotInv_of_ne <;> simp [hs])
        · apply slotInv_of_ne <;> exact ne_of_state_after _ _ _ (by decide) (by simp [hs])
    · exact slotInv_of_ne _ (by simp [hs]) (by simp [hs])

theorem slotInv_handleIssueReported (s : AppState) (msg : String)
    (hs : s.ctx.currentState = ConvState.ISSUE_REPORTED) :
    slotInv (handleIssueReported s msg).1 := by
  simp only [handleIssueReported]
  split
  · apply slotInv_of_ne <;> exact ne_of_state_after _ _ _ (by decide) (by simp [hs])
  · split
    · apply slotInv_of_ne <;> exact ne_of_state_after _ _ _ (by decide) (by simp [hs])
    · exact slotInv_of_ne s (by simp [hs]) (by simp [hs])

theorem slotInv_handleScheduling (env : Env) (s : AppState) (msg : String)
    (hs : s.ctx.currentState = ConvState.SERVICE_SCHEDULING) :
    slotInv (handleScheduling env s msg).1 := by
  simp only [handleScheduling]
  split
  · split
    · exact slotInv_of_ne s (by simp [hs]) (by simp [hs])
    · split
      · exact slotInv_of_ne s (by simp [hs]) (by simp [hs])
      · exact slotInv_of_ne _ (by simp [hs]) (by simp [hs])
  · split
    · exact slotInv_of_ne s (by simp [hs]) (by simp [hs])
    · split
      · split
        · exact slotInv_of_ne s (by simp [hs]) (by simp [hs])
        · split
          · split
            · intro _
              simp
            · exact slotInv_of_ne s (by simp [hs]) (by simp [hs])
          · exact slotInv_of_ne s (by simp [hs]) (by simp [hs])
      · exact slotInv_of_ne s (by simp [hs]) (by simp [hs])

theorem slotInv_handleCollect (s : AppState) (msg : String)
    (hs : s.ctx.currentState = ConvState.COLLECT_CUSTOMER_INFO)
    (hInv : slotInv s) : slotInv (handleCollect s msg).1 := by
  have hsel : s.selectedSlot ≠ none := hInv (Or.inl hs)
  simp only [handleCollect]
  split
  · intro _
    simpa using hsel
  · split
    · split
      · intro _
        simpa using hsel
      · intro _
        simpa using hsel
    · split
      · split
        · intro _
          simpa using hsel
        · intro _
          simpa using hsel
      · split
        · split
          · intro _
            simpa using hsel
          · intro _
            simpa using hsel
        · intro _
          simpa using hsel

theorem slotInv_handleConfirmation (env : Env) (s : AppState) (msg : String)
    (hs : s.ctx.currentState = ConvState.CONFIRMATION)
    (hInv : slotInv s) : slotInv (handleConfirmation env s msg).1 := by
  have hsel : s.selectedSlot ≠ none := hInv (Or.inr hs)
  simp only [handleConfirmation]
  split
  · split
    · intro _
      simpa using hsel
    · intro _
      simpa using hsel
  · split
    · intro _
      simpa using hsel
    · intro _
      simpa using hsel

theorem slotInv_handleEnd (s : AppState) (msg : String)
    (hs : s.ctx.currentState = ConvState.END) : slotInv (handleEnd s msg).1 := by
  simp only [handleEnd]
  split
  · exact slotInv_of_ne _ (by simp [freshCtx]) (by simp [freshCtx])
  · exact slotInv_of_ne s (by simp [hs]) (by simp [hs])

/-- One dispatch step preserves the selected-slot invariant. -/
theorem slotInv_dispatch (env : Env) (s : AppState) (msg : String)
    (hInv : slotInv s) : slotInv (dispatch env s msg).1 := by
  unfold dispatch
  split
  all_goals rename_i hs
  · exact slotInv_handleWelcome s msg hs
  · exact slotInv_handleDevice env s msg hs
  · exact slotInv_handleIssueAnalysis env s msg hs
  · exact slotInv_handleCheckResolution s msg hs
  · exact slotInv_handleIssueReported s msg hs
  · exact slotInv_handleScheduling env s msg hs
  · exact slotInv_handleCollect s msg hs hInv
  · exact slotInv_handleConfirmation env s msg hs hInv
  · exact slotInv_handleEnd s msg hs
  · exact slotInv_of_ne s (by simp [hs]) (by simp [hs])

/-- Every reachable state satisfies the invariant. -/
theorem slotInv_of_reachable (s : AppState) (h : Reachable s) : slotInv s := by
  induction h with
  | init => exact slotInv_of_ne initialState (by decide) (by decide)
  | next env msg hr ih => exact slotInv_dispatch env _ msg ih

/-- C10: in every context reachable from a fresh conversation through the
dispatch loop, whenever the current state is `COLLECT_CUSTOMER_INFO` or
`CONFIRMATION` a slot has been selected (`selected_slot` is not `None`), so
the address-completion step can always format it. -/
theorem c10_selected_slot_invariant (s : AppState) (h : Reachable s)
    (hst : s.ctx.currentState = ConvState.COLLECT_CUSTOMER_INFO ∨
      s.ctx.currentState = ConvState.CONFIRMATION) :
    s.selectedSlot ≠ none :=
  slotInv_of_reachable s h hst

/-- Witness for C10: a full conversation — consent, device verification,
issue description, three failed resolutions, scheduling, slot list, slot
choice — reaches `COLLECT_CUSTOMER_INFO` with a selected slot. -/
theorem c10_selected_slot_invariant_witness :
    (dispatch env0 (dispatch env0 (dispatch env0 (dispatch env0 (dispatch env0 (dispatch env0
      (dispatch env0 (dispatch env0 (dispatch env0 initialState "tak").1 "sn: 123").1
        "urzadzenie nie dziala poprawnie wcale").1 "nie").1 "nie").1 "nie").1 "tak").1
      "tak").1 "1").1.selectedSlot ≠ none :=
  c10_selected_slot_invariant _
    (Reachable.next env0 "1" (Reachable.next env0 "tak" (Reachable.next env0 "tak"
      (Reachable.next env0 "nie" (Reachable.next env0 "nie" (Reachable.next env0 "nie"
        (Reachable.next env0 "urzadzenie nie dziala poprawnie wcale"
          (Reachable.next env0 "sn: 123" (Reachable.next env0 "tak"
            Reachable.init)))))))))
    (Or.inl (by decide))

end VetEye
